import Mathlib

/-!
Verification development for the `podlet` dependency-injection framework.

The Python source is shallowly embedded:
* `snakeCase` embeds `helpers.snake_case` (the two regex substitutions, the
  dash replacement and lowercasing, modelled on ASCII character lists);
* `RClass` / `Instance` model registrant classes and instances;
* `registrantInit` / `initializationContext` embed
  `RegistrantAbstract.__init__` and `_initialization_context`;
* `Registry.register` / `Registry.get` embed `registry.Registry`;
* `RegistrarState` embeds `registrar.Registrar` (registries and options are
  association lists, matching Python dict insertion-order semantics);
* `mkBootstrap` and the `World` heap model the shared mutable default
  `options = {}` of `Bootstrap.__init__`.
-/

namespace Podlet

/-! ## Character helpers (ASCII, as used by the regexes in `helpers.py`) -/

def isUpperA (c : Char) : Bool := 'A' ≤ c && c ≤ 'Z'

def isLowerA (c : Char) : Bool := 'a' ≤ c && c ≤ 'z'

def isDigitA (c : Char) : Bool := '0' ≤ c && c ≤ '9'

def isLowerOrDigitA (c : Char) : Bool := isLowerA c || isDigitA c

/-- ASCII lowercasing, the effect of Python `str.lower()` on ASCII text. -/
def toLowerA (c : Char) : Char :=
  if isUpperA c then Char.ofNat (c.toNat + 32) else c

/-! ## `helpers.snake_case`

`snake_case` applies, in order:
1. `re.sub(r"([A-Z]+)([A-Z][a-z])", r'\1_\2', word)`
2. `re.sub(r"([a-z\d])([A-Z])", r'\1_\2', word)`
3. `word.replace("-", "_")`
4. `word.lower()`
-/

/-- Length of the maximal uppercase run at the head of the list. -/
def upperRunLen : List Char → Nat
  | [] => 0
  | c :: cs => if isUpperA c then upperRunLen cs + 1 else 0

theorem upperRunLen_le_length (l : List Char) : upperRunLen l ≤ l.length := by
  induction l with
  | nil => simp [upperRunLen]
  | cons c cs ih =>
    simp only [upperRunLen, List.length_cons]
    split
    · omega
    · omega

/-- First regex: at each scan position a match exists iff an uppercase run of
length `n ≥ 2` is followed by a lowercase letter; the greedy match consumes the
run and the lowercase letter and an underscore is inserted before the last
uppercase letter.  The scan resumes after the match, as `re.sub` does.
Structural recursion on a fuel that bounds the list length. -/
def sub1Fuel : Nat → List Char → List Char
  | 0, l => l
  | _ + 1, [] => []
  | fuel + 1, c :: cs =>
    let n := upperRunLen (c :: cs)
    if 2 ≤ n ∧ ((c :: cs).drop n).head?.any isLowerA then
      (c :: cs).take (n - 1) ++ '_' :: ((c :: cs).drop (n - 1)).take 2
        ++ sub1Fuel fuel ((c :: cs).drop (n + 1))
    else
      c :: sub1Fuel fuel cs

def sub1 (l : List Char) : List Char := sub1Fuel l.length l

/-- Second regex: a lowercase letter or digit immediately followed by an
uppercase letter gets an underscore inserted between them; the scan resumes
after the uppercase letter. -/
def sub2 : List Char → List Char
  | [] => []
  | [c] => [c]
  | c1 :: c2 :: rest =>
    if isLowerOrDigitA c1 && isUpperA c2 then c1 :: '_' :: c2 :: sub2 rest
    else c1 :: sub2 (c2 :: rest)

/-- Embedding of `helpers.snake_case` on character lists. -/
def snakeCase (l : List Char) : List Char :=
  ((sub2 (sub1 l)).map (fun c => if c = '-' then '_' else c)).map toLowerA

/-! ## `ResourceAbstract.identity` (`resource.py`) -/

def kindSuffix : List Char := "_resource".data

/-- Embedding of `ResourceAbstract.identity`: snake-case the class name and
strip the `\x7bkind()\x7d`-derived suffix `"_resource"` when present
(`class_name_snake[:-len(kind_suffix)]`). -/
def resourceIdentity (className : List Char) : List Char :=
  let sn := snakeCase className
  if kindSuffix.isSuffixOf sn then sn.take (sn.length - kindSuffix.length)
  else sn

/-! ## Classes and instances

A Python registrant class is modelled by its name, its declared `kind()` and
`identity()` results, and the names of all classes in its MRO (so
`issubclass`/`isinstance` become membership tests).  Class names identify
classes. -/

structure RClass where
  name : String
  kind : String
  ident : String
  ancestors : List String
  deriving DecidableEq, Repr

/-- Python `issubclass(c, parent)`. -/
def issubclassOf (c parent : RClass) : Bool := parent.name ∈ c.ancestors

/-- Errors raised by the embedded code paths. -/
inductive PyError where
  | importError
  | typeError
  | valueError
  | runtimeError
  | keyError
  deriving DecidableEq, Repr

/-- A registrant instance: its class, the `kind()` of the registry passed to
the constructor (`self.registry`), the `_is_initializing` / `_is_initialized`
flags, how many times the abstract `initialize()` body has run, and whether
`__init__` has overwritten `self.initialize` with the no-op lambda. -/
structure Instance where
  cls : RClass
  registryKind : String
  isInitializing : Bool
  isInitialized : Bool
  initCount : Nat
  initOverwritten : Bool
  deriving DecidableEq, Repr

/-- Python `isinstance(inst, parent)`. -/
def isinstanceOf (inst : Instance) (parent : RClass) : Bool :=
  parent.name ∈ inst.cls.ancestors

/-! ## `RegistrantAbstract.__init__` and `_initialization_context`
(`registrant.py`) -/

/-- Embedding of `RegistrantAbstract._initialization_context`: fail if already
initialized, fail if already initializing, otherwise set `_is_initializing`,
run the body, and in the `finally` clause clear `_is_initializing` and set
`_is_initialized`. -/
def initializationContext (i : Instance) (body : Instance → Instance) :
    Except PyError Instance :=
  if i.isInitialized then .error .runtimeError
  else if i.isInitializing then .error .runtimeError
  else
    let i2 := body { i with isInitializing := true }
    .ok { i2 with isInitializing := false, isInitialized := true }

/-- A fresh instance right after `self.registry = registry`: no `_is_…`
attributes exist yet, so both flag properties read false. -/
def freshInstance (cls : RClass) (registryKind : String) : Instance :=
  { cls := cls, registryKind := registryKind, isInitializing := false,
    isInitialized := false, initCount := 0, initOverwritten := false }

/-- Embedding of `RegistrantAbstract.__init__(registry)`: store the registry,
run `initialize()` inside the initialization context (the modelled
`initialize` body just counts its executions), then overwrite `initialize`
with a no-op lambda. -/
def registrantInit (cls : RClass) (registryKind : String) :
    Except PyError Instance :=
  match initializationContext (freshInstance cls registryKind)
      (fun i => { i with initCount := i.initCount + 1 }) with
  | .error e => .error e
  | .ok i => .ok { i with initOverwritten := true }

/-- Calling `inst.initialize()` after construction: the instance attribute is
the no-op lambda, so the call leaves the instance unchanged; before the
overwrite the class-level `initialize` body runs. -/
def callInitialize (i : Instance) : Instance :=
  if i.initOverwritten then i else { i with initCount := i.initCount + 1 }

/-! ## `helpers.only_while_initializing` (`helpers.py`)

The wrapper body executes, in order:
1. `from .registrant import RegistrantAbstract`
2. `from .resource import wraps`
3. the `isinstance` guard (`TypeError`)
4. the `_is_initializing` guard (`RuntimeError`)
5. the wrapped function.

A `from module import name` statement succeeds iff `name` is bound in the
module's namespace and raises `ImportError` otherwise. -/

/-- Names bound at module level in `registrant.py`. -/
def registrantModuleExports : List String :=
  ["annotations", "ABC", "abstractmethod", "contextmanager", "TYPE_CHECKING",
   "Any", "Dict", "Generator", "RegistrantIdentity", "RegistrantKind",
   "RegistrantAbstract"]

/-- Names bound at module level in `resource.py`.  Note: no `wraps`. -/
def resourceModuleExports : List String :=
  ["annotations", "ABC", "abstractmethod", "UserDict", "Any", "Dict", "Self",
   "Type", "TypeVar", "_only_while_initializing", "snake_case",
   "RegistrantAbstract", "RegistrantIdentity", "RegistrantKind", "Registry",
   "only_while_initializing", "ResourceAbstract", "ResourceRegistry"]

/-- Python `from m import name`. -/
def importFrom (moduleExports : List String) (name : String) :
    Except PyError Unit :=
  if name ∈ moduleExports then .ok () else .error .importError

/-- Name of the registrant base class, used by the wrapper's
`isinstance(self, RegistrantAbstract)` guard. -/
def registrantAbstractName : String := "RegistrantAbstract"

/-- Embedding of a call to a method decorated with `only_while_initializing`.
`body` is the wrapped function. -/
def onlyWhileInitializingCall (i : Instance) (body : Instance → Instance) :
    Except PyError Instance :=
  match importFrom registrantModuleExports "RegistrantAbstract" with
  | .error e => .error e
  | .ok _ =>
    match importFrom resourceModuleExports "wraps" with
    | .error e => .error e
    | .ok _ =>
      if registrantAbstractName ∉ i.cls.ancestors then .error .typeError
      else if ¬ i.isInitializing then .error .runtimeError
      else .ok (body i)

/-! ## Association lists (Python `dict` with insertion order) -/

/-- Python `d.get(k)` / `k in d` and the `d[k]` read. -/
def alookup {α : Type} : List (String × α) → String → Option α
  | [], _ => none
  | (k', v) :: rest, k => if k' = k then some v else alookup rest k

/-- Python `d[k] = v`: replace in place when the key exists, else append. -/
def aset {α : Type} : List (String × α) → String → α → List (String × α)
  | [], k, v => [(k, v)]
  | (k', v') :: rest, k, v =>
    if k' = k then (k, v) :: rest else (k', v') :: aset rest k v

/-! ## `registry.Registry` (`registry.py`) -/

/-- State of a `Registry[Tr]` instance: the recovered generic argument
`_registrant_type()` and the two identity-keyed maps.  The back-reference to
the registrar is threaded explicitly where options are read. -/
structure RegistryState where
  registrantType : RClass
  registered : List (String × RClass)
  initialized : List (String × Instance)
  deriving DecidableEq, Repr

/-- Embeds `Registry.kind()`: the memoized `cls._registrant_type().kind()`
(`ResourceRegistry` overrides it with the same value, `ResourceAbstract.kind()`). -/
def RegistryState.kindOf (r : RegistryState) : String := r.registrantType.kind

/-- Embeds `Registry.is_compatible`: `klass is minimum_type or issubclass(klass, minimum_type)`. -/
def RegistryState.isCompatible (r : RegistryState) (klass : RClass) : Bool :=
  klass.name = r.registrantType.name || issubclassOf klass r.registrantType

/-- Embedding of `Registry.register`: the type-compatibility guard
(`TypeError`), the kind guard comparing `Resolve(klass).kind`, i.e.
`klass.kind()`, with `self.kind()` (`ValueError`), then insert under
`klass.identity()` only when absent. -/
def RegistryState.register (r : RegistryState) (klass : RClass) :
    Except PyError RegistryState :=
  if ¬ r.isCompatible klass then .error .typeError
  else if klass.kind ≠ r.kindOf then .error .valueError
  else if (alookup r.registered klass.ident).isSome then .ok r
  else .ok { r with registered := r.registered ++ [(klass.ident, klass)] }

/-- Embedding of `Registry.get` on an already-resolved identity: fail when the
identity is unregistered; construct and cache the instance on first access
(passing the registry to the class constructor as `registry=self`); return
the cached instance afterwards. -/
def RegistryState.get (r : RegistryState) (ident : String) :
    Except PyError (Instance × RegistryState) :=
  if (alookup r.registered ident).isNone then .error .valueError
  else
    match alookup r.initialized ident with
    | some inst => .ok (inst, r)
    | none =>
      match alookup r.registered ident with
      | none => .error .valueError
      | some klass =>
        match registrantInit klass r.kindOf with
        | .error e => .error e
        | .ok inst =>
          .ok (inst, { r with initialized := r.initialized ++ [(ident, inst)] })

/-- The `str | Type[Tr]` arguments, resolved by `Resolve(...).identity`. -/
inductive IdentOrType where
  | str (s : String)
  | cls (c : RClass)
  deriving DecidableEq, Repr

/-- Embeds `Resolve(x).identity`: strings resolve to themselves, registrant classes
to their `identity()`. -/
def resolveIdentity : IdentOrType → String
  | .str s => s
  | .cls c => c.ident

/-! ## `registrar.Registrar` (`registrar.py`) -/

abbrev OptionVal := String
abbrev RegistrantOptions := List (String × OptionVal)
abbrev RegistryOptions := List (String × RegistrantOptions)
abbrev RegistrarOptions := List (String × RegistryOptions)

/-- A `Registry` subclass handed to `register_registry`, identified by the
registrant type recovered from its generic argument. -/
structure RegistryClass where
  registrantType : RClass
  deriving DecidableEq, Repr

/-- The class's own declared `kind()` classmethod. -/
def RegistryClass.kindDecl (rc : RegistryClass) : String := rc.registrantType.kind

/-- Embeds `Resolve(registry_klass).kind`: the `is_registry` branch calls
`self.unknown.kind()`, i.e. the class's own `kind()`. -/
def resolveRegistryKind (rc : RegistryClass) : String := rc.kindDecl

/-- Embeds `registry_klass(registrar=self)`: a registry instance with empty maps. -/
def RegistryClass.instantiate (rc : RegistryClass) : RegistryState :=
  { registrantType := rc.registrantType, registered := [], initialized := [] }

/-- State of a `Registrar`: the kind-keyed registries and the nested options. -/
structure RegistrarState where
  registries : List (String × RegistryState)
  options : RegistrarOptions
  deriving DecidableEq, Repr

/-- Embeds `Registrar.get_registry_options` with a string kind: `self.options[kind]`
when present, else `\x7b\x7d`. -/
def RegistrarState.getRegistryOptions (s : RegistrarState) (kind : String) :
    RegistryOptions :=
  match alookup s.options kind with
  | some v => v
  | none => []

/-- Embeds `Registrar.set_registry_options` with a string kind:
`self.options[kind] = options`. -/
def RegistrarState.setRegistryOptions (s : RegistrarState) (kind : String)
    (o : RegistryOptions) : RegistrarState :=
  { s with options := aset s.options kind o }

/-- Embeds `Registrar.set_options`: wholesale replacement of `self.options`. -/
def RegistrarState.setOptions (s : RegistrarState) (o : RegistrarOptions) :
    RegistrarState :=
  { s with options := o }

/-- Embedding of `Registrar.register_registry`: resolve the kind via
`Resolve`, reject on mismatch with the declared `kind()`, then instantiate
the registry only when no registry of that kind exists. -/
def RegistrarState.registerRegistry (s : RegistrarState) (rc : RegistryClass) :
    Except PyError RegistrarState :=
  let kind := resolveRegistryKind rc
  if kind ≠ rc.kindDecl then .error .valueError
  else if (alookup s.registries kind).isSome then .ok s
  else .ok { s with registries := s.registries ++ [(kind, rc.instantiate)] }

/-- Embeds `Registrar.register` for a single class: route to the registry of the
class's kind, failing when no such registry exists. -/
def RegistrarState.registerClass (s : RegistrarState) (klass : RClass) :
    Except PyError RegistrarState :=
  let kind := klass.kind
  match alookup s.registries kind with
  | none => .error .valueError
  | some reg =>
    match reg.register klass with
    | .error e => .error e
    | .ok reg' => .ok { s with registries := aset s.registries kind reg' }

/-- Embeds `Registrar.get(kind, ident)`: look the registry up by kind
(`KeyError` when absent) and delegate to `Registry.get`; the registry object
is mutated in place, so the registrar's map is updated with the new registry
state. -/
def RegistrarState.get (s : RegistrarState) (kind : String) (ident : String) :
    Except PyError (Instance × RegistrarState) :=
  match alookup s.registries kind with
  | none => .error .keyError
  | some reg =>
    match reg.get ident with
    | .error e => .error e
    | .ok (inst, reg') =>
      .ok (inst, { s with registries := aset s.registries kind reg' })

/-! ## `resource.py` and `bootstrap.py` -/

/-- The `ResourceAbstract` base class: `kind()` is the literal `"resource"`,
`identity()` is derived from the class name. -/
def resourceAbstractClass : RClass :=
  { name := "ResourceAbstract", kind := "resource",
    ident := String.mk (resourceIdentity "ResourceAbstract".data),
    ancestors := ["ResourceAbstract", "RegistrantAbstract"] }

/-- The `ResourceRegistry` class, whose generic argument is `ResourceAbstract`. -/
def resourceRegistryClass : RegistryClass :=
  { registrantType := resourceAbstractClass }

/-- Embedding of `Bootstrap.get_resource`: resolve the identity, fetch via
`self.get(ResourceAbstract.kind(), identity)`, then enforce
`isinstance(resource, expected_type)` where `expected_type` is the argument
itself when a type was given and `ResourceAbstract` when a string was given. -/
def Bootstrap.getResource (s : RegistrarState) (identOrType : IdentOrType) :
    Except PyError (Instance × RegistrarState) :=
  let ident := resolveIdentity identOrType
  match s.get resourceAbstractClass.kind ident with
  | .error e => .error e
  | .ok (inst, s') =>
    let expected : RClass :=
      match identOrType with
      | .cls c => c
      | .str _ => resourceAbstractClass
    if ¬ isinstanceOf inst expected then .error .typeError
    else .ok (inst, s')

/-! ## The shared mutable default `options = \x7b\x7d` (`bootstrap.py`)

`Bootstrap.__init__` declares `options = \x7b\x7d` as a keyword default.  Python
evaluates the default once, at function definition time, producing a single
dict object shared by every call that omits the argument.  The heap below
makes that aliasing explicit: `World.heap` maps references to options dicts,
and reference `0` is the dict allocated when `def __init__` was executed. -/

structure World where
  heap : List RegistrarOptions

/-- The world as it stands after the module defining `Bootstrap.__init__` has
been imported: the default-argument dict exists and is empty. -/
def initialWorld : World := { heap := [[]] }

/-- The reference to the default-argument dict of `Bootstrap.__init__`. -/
def defaultOptionsRef : Nat := 0

/-- A `Bootstrap` object, reduced to the reference its `options` attribute
holds (its registries are per-instance and play no role in the aliasing). -/
structure BootstrapObj where
  optionsRef : Nat
  deriving DecidableEq, Repr

/-- Embeds `Bootstrap(...)`: with an explicit `options` argument a caller-supplied
dict is stored; without it, `self.options` becomes the shared default dict. -/
def mkBootstrap (w : World) (explicitOptions : Option RegistrarOptions) :
    BootstrapObj × World :=
  match explicitOptions with
  | none => ({ optionsRef := defaultOptionsRef }, w)
  | some o => ({ optionsRef := w.heap.length }, { heap := w.heap ++ [o] })

/-- Read the dict an object's `options` reference points to. -/
def World.read (w : World) (ref : Nat) : RegistrarOptions :=
  (w.heap.get? ref).getD []

/-- Embeds `set_registry_options` through the heap: `self.options[kind] = options`
mutates the referenced dict in place. -/
def World.setRegistryOptions (w : World) (b : BootstrapObj) (kind : String)
    (o : RegistryOptions) : World :=
  { heap := w.heap.set b.optionsRef (aset (w.read b.optionsRef) kind o) }

/-- Embeds `get_registry_options` through the heap. -/
def World.getRegistryOptions (w : World) (b : BootstrapObj) (kind : String) :
    RegistryOptions :=
  match alookup (w.read b.optionsRef) kind with
  | some v => v
  | none => []

/-! ## Concrete example classes (mirroring the test suite's fixtures) -/

/-- The test suite's `DatabaseResource`, a `ResourceAbstract` subclass with
identity `"database"`. -/
def databaseResourceClass : RClass :=
  { name := "DatabaseResource"
    kind := "resource"
    ident := "database"
    ancestors := ["DatabaseResource", "ResourceAbstract", "RegistrantAbstract"] }

/-- The test suite's `CacheResource`. -/
def cacheResourceClass : RClass :=
  { name := "CacheResource"
    kind := "resource"
    ident := "cache"
    ancestors := ["CacheResource", "ResourceAbstract", "RegistrantAbstract"] }

/-- A class outside the resource hierarchy, incompatible with a resource
registry. -/
def rogueClass : RClass :=
  { name := "Rogue"
    kind := "resource"
    ident := "rogue"
    ancestors := ["Rogue"] }

/-- A `ResourceAbstract` subclass that overrides `kind()` to `"service"`. -/
def wrongKindClass : RClass :=
  { name := "ServiceThing"
    kind := "service"
    ident := "service_thing"
    ancestors := ["ServiceThing", "ResourceAbstract", "RegistrantAbstract"] }

/-- The instance obtained by constructing `DatabaseResource` from a resource
registry. -/
def databaseInstance : Instance :=
  { cls := databaseResourceClass
    registryKind := "resource"
    isInitializing := false
    isInitialized := true
    initCount := 1
    initOverwritten := true }

/-- A snapshot of an instance caught mid-initialization. -/
def initializingInstance : Instance :=
  { cls := databaseResourceClass
    registryKind := "resource"
    isInitializing := true
    isInitialized := false
    initCount := 0
    initOverwritten := false }

/-! ## Helper lemmas about association lists -/

theorem alookup_append_of_none {α : Type} (l l' : List (String × α)) (k : String)
    (h : alookup l k = none) : alookup (l ++ l') k = alookup l' k := by
  induction l with
  | nil => simp
  | cons p rest ih =>
    obtain ⟨k', v⟩ := p
    by_cases hk : k' = k
    · simp [alookup, hk] at h
    · simp only [List.cons_append, alookup, if_neg hk] at h ⊢
      exact ih h

theorem alookup_filter_nil {α : Type} (l : List (String × α)) (k : String)
    (h : alookup l k = none) :
    l.filter (fun p => p.1 = k) = [] := by
  induction l with
  | nil => simp
  | cons p rest ih =>
    obtain ⟨k', v⟩ := p
    by_cases hk : k' = k
    · simp [alookup, hk] at h
    · simp only [alookup, if_neg hk] at h
      simpa [List.filter, hk] using ih h

/-- Constructing a registrant never fails and runs the `initialize` body
exactly once: the fresh instance passes both context guards. -/
theorem registrantInit_eq (cls : RClass) (rk : String) :
    registrantInit cls rk = Except.ok
      { cls := cls, registryKind := rk, isInitializing := false,
        isInitialized := true, initCount := 1, initOverwritten := true } := rfl

/-! ## Theorems about the claims -/

/-- C7: for every resource class that does not override `identity()`, the
default identity is the snake-case class name with a trailing `"_resource"`
stripped when present: whenever the snake-case name decomposes as
`t ++ "_resource"` the identity is exactly `t`, and when the suffix is absent
the identity is the full snake-case name. -/
theorem C7_default_resource_identity :
    (∀ name t : List Char, snakeCase name = t ++ kindSuffix →
      resourceIdentity name = t) ∧
    (∀ name : List Char, kindSuffix.isSuffixOf (snakeCase name) = false →
      resourceIdentity name = snakeCase name) := by
  constructor
  · intro name t h
    unfold resourceIdentity
    rw [h]
    have hsuf : kindSuffix.isSuffixOf (t ++ kindSuffix) = true := by
      rw [List.isSuffixOf_iff_suffix]
      exact List.suffix_append t kindSuffix
    rw [if_pos hsuf]
    simp
  · intro name h
    unfold resourceIdentity
    simp [h]

/-- C7 witness: `DatabaseResource` has identity `"database"`, and a class
whose snake-case name lacks the suffix (`Cache`) keeps its full snake-case
name. -/
theorem C7_default_resource_identity_witness :
    resourceIdentity "DatabaseResource".data = "database".data ∧
    resourceIdentity "Cache".data = snakeCase "Cache".data := by
  refine ⟨C7_default_resource_identity.1 _ "database".data (by decide),
          C7_default_resource_identity.2 _ (by decide)⟩

/-- C8: options round-trip.  After `set_options` with the nested structure
`\x7b"resource": \x7b"database": \x7b"host": "x"\x7d\x7d\x7d`,
`get_registry_options "resource"` returns exactly the inner mapping; and for
any kind absent from the options mapping, `get_registry_options` returns the
empty mapping. -/
theorem C8_options_roundtrip :
    (∀ s : RegistrarState,
      (s.setOptions [("resource", [("database", [("host", "x")])])]
        ).getRegistryOptions "resource" = [("database", [("host", "x")])]) ∧
    (∀ (s : RegistrarState) (kind : String), alookup s.options kind = none →
      s.getRegistryOptions kind = []) := by
  constructor
  · intro s
    simp [RegistrarState.setOptions, RegistrarState.getRegistryOptions, alookup]
  · intro s kind h
    simp [RegistrarState.getRegistryOptions, h]

/-- C8 witness: evaluating the round trip and the absent-kind case on a
concrete registrar. -/
theorem C8_options_roundtrip_witness :
    (RegistrarState.getRegistryOptions
      (RegistrarState.setOptions ⟨[], []⟩
        [("resource", [("database", [("host", "x")])])]) "resource")
      = [("database", [("host", "x")])] ∧
    RegistrarState.getRegistryOptions ⟨[], []⟩ "service" = [] := by
  exact ⟨C8_options_roundtrip.1 ⟨[], []⟩,
         C8_options_roundtrip.2 ⟨[], []⟩ "service" rfl⟩

/-- C10: two `Bootstrap` objects constructed without an explicit `options`
argument alias the single default dict evaluated at `def __init__` time, so a
`set_registry_options` through the first is observed by
`get_registry_options` on the second. -/
theorem C10_shared_default_options (kind : String) (o : RegistryOptions) :
    ((mkBootstrap initialWorld none).1).optionsRef
      = ((mkBootstrap (mkBootstrap initialWorld none).2 none).1).optionsRef ∧
    World.getRegistryOptions
      (World.setRegistryOptions
        ((mkBootstrap (mkBootstrap initialWorld none).2 none).2)
        ((mkBootstrap initialWorld none).1) kind o)
      ((mkBootstrap (mkBootstrap initialWorld none).2 none).1) kind = o := by
  constructor
  · rfl
  · simp [mkBootstrap, initialWorld, World.setRegistryOptions,
      World.getRegistryOptions, World.read, defaultOptionsRef, aset, alookup]

/-- C2 (code bug): the wrapper produced by `only_while_initializing` executes
`from .resource import wraps`, but `resource.py` binds no name `wraps`, so
every call of a decorated method raises `ImportError` — before either the
`isinstance` guard or the `_is_initializing` guard is reached, whether or not
the instance is initializing. -/
theorem C2_decorated_call_raises_import_error (i : Instance)
    (body : Instance → Instance) :
    onlyWhileInitializingCall i body = Except.error PyError.importError := by
  simp [onlyWhileInitializingCall, importFrom, registrantModuleExports,
    resourceModuleExports]

/-- C4: `initialize()` runs exactly once during construction (the constructed
instance has run the body a single time and the registry was recorded);
afterwards the overwritten `initialize` is a no-op; re-entering the
initialization context while already initializing, or entering it on an
already-initialized instance, each raise a runtime error. -/
theorem C4_initialize_exactly_once :
    (∀ (cls : RClass) (rk : String),
      registrantInit cls rk = Except.ok
        { cls := cls, registryKind := rk, isInitializing := false,
          isInitialized := true, initCount := 1, initOverwritten := true }) ∧
    (∀ i : Instance, i.initOverwritten = true → callInitialize i = i) ∧
    (∀ (i : Instance) (body : Instance → Instance),
      i.isInitialized = false → i.isInitializing = true →
      initializationContext i body = Except.error PyError.runtimeError) ∧
    (∀ (i : Instance) (body : Instance → Instance),
      i.isInitialized = true →
      initializationContext i body = Except.error PyError.runtimeError) := by
  refine ⟨fun cls rk => rfl, fun i h => by simp [callInitialize, h],
    fun i body h1 h2 => by simp [initializationContext, h1, h2],
    fun i body h => by simp [initializationContext, h]⟩

/-- C4 witness: a concrete class constructed once, its post-construction
no-op `initialize`, and the two rejection paths evaluated on concrete
instances. -/
theorem C4_initialize_exactly_once_witness :
    registrantInit databaseResourceClass "resource" = Except.ok databaseInstance ∧
    callInitialize databaseInstance = databaseInstance ∧
    initializationContext initializingInstance id
      = Except.error PyError.runtimeError ∧
    initializationContext databaseInstance id
      = Except.error PyError.runtimeError := by
  exact ⟨C4_initialize_exactly_once.1 databaseResourceClass "resource",
    C4_initialize_exactly_once.2.1 databaseInstance rfl,
    C4_initialize_exactly_once.2.2.1 initializingInstance id rfl rfl,
    C4_initialize_exactly_once.2.2.2 databaseInstance id rfl⟩

/-- C1: `Registry.get` on an unregistered identity fails with the
not-registered error; on a registered but not-yet-constructed identity it
constructs exactly one instance via the class constructor (which receives the
registry) and caches it; a `get` on an already-cached identity returns the
identical instance and leaves the registry unchanged — so repeated `get`
calls return the cached singleton. -/
theorem C1_registry_get_singleton (r : RegistryState) (ident : String) :
    (alookup r.registered ident = none →
      r.get ident = Except.error PyError.valueError) ∧
    (∀ klass : RClass, alookup r.registered ident = some klass →
      alookup r.initialized ident = none →
      ∃ inst : Instance,
        registrantInit klass r.kindOf = Except.ok inst ∧
        r.get ident = Except.ok
          (inst, { r with initialized := r.initialized ++ [(ident, inst)] }) ∧
        RegistryState.get
            { r with initialized := r.initialized ++ [(ident, inst)] } ident
          = Except.ok
            (inst, { r with initialized := r.initialized ++ [(ident, inst)] })) ∧
    (∀ inst : Instance, (alookup r.registered ident).isSome = true →
      alookup r.initialized ident = some inst →
      r.get ident = Except.ok (inst, r)) := by
  refine ⟨?_, ?_, ?_⟩
  · intro h
    simp [RegistryState.get, h]
  · intro klass h1 h2
    refine ⟨_, registrantInit_eq klass r.kindOf, ?_, ?_⟩
    · simp [RegistryState.get, h1, h2, registrantInit_eq]
    · have hinit : alookup
          (r.initialized ++ [(ident,
            { cls := klass, registryKind := r.kindOf, isInitializing := false,
              isInitialized := true, initCount := 1,
              initOverwritten := true })]) ident
          = some
            { cls := klass, registryKind := r.kindOf, isInitializing := false,
              isInitialized := true, initCount := 1,
              initOverwritten := true } := by
        rw [alookup_append_of_none _ _ _ h2]
        simp [alookup]
      simp [RegistryState.get, h1, hinit]
  · intro inst h1 h2
    have hn : (alookup r.registered ident).isNone = false := by
      cases hx : alookup r.registered ident
      · rw [hx] at h1
        simp at h1
      · rfl
    simp [RegistryState.get, hn, h2]

/-- C1 witness: on a registry with `DatabaseResource` registered, `get` on the
unregistered identity `"apple"` fails, the first `get "database"` constructs
and caches the instance, and the second `get "database"` returns the
identical cached instance. -/
theorem C1_registry_get_singleton_witness :
    (alookup (RegistryState.mk resourceAbstractClass
        [("database", databaseResourceClass)] []).registered "apple" = none ∧
      (RegistryState.mk resourceAbstractClass
        [("database", databaseResourceClass)] []).get "apple"
        = Except.error PyError.valueError) ∧
    (∃ inst : Instance,
      registrantInit databaseResourceClass
          (RegistryState.mk resourceAbstractClass
            [("database", databaseResourceClass)] []).kindOf
        = Except.ok inst ∧
      (RegistryState.mk resourceAbstractClass
        [("database", databaseResourceClass)] []).get "database"
        = Except.ok (inst, RegistryState.mk resourceAbstractClass
            [("database", databaseResourceClass)] [("database", inst)]) ∧
      (RegistryState.mk resourceAbstractClass
        [("database", databaseResourceClass)] [("database", inst)]).get
          "database"
        = Except.ok (inst, RegistryState.mk resourceAbstractClass
            [("database", databaseResourceClass)] [("database", inst)])) := by
  refine ⟨⟨rfl, (C1_registry_get_singleton _ "apple").1 rfl⟩, ?_⟩
  obtain ⟨inst, hi, hget, hget2⟩ :=
    (C1_registry_get_singleton
      (RegistryState.mk resourceAbstractClass
        [("database", databaseResourceClass)] []) "database").2.1
      databaseResourceClass rfl rfl
  exact ⟨inst, hi, hget, hget2⟩

/-- C5: `Registry.register` is idempotent.  If one `register` call succeeded,
the second call with the same class raises no error and returns the same
state; and starting from a state where the identity was absent, the resulting
map holds exactly one entry for that identity, mapping it to the class. -/
theorem C5_register_idempotent (r r1 : RegistryState) (klass : RClass)
    (h : r.register klass = Except.ok r1) :
    r1.register klass = Except.ok r1 ∧
    (alookup r.registered klass.ident = none →
      alookup r1.registered klass.ident = some klass ∧
      (r1.registered.filter (fun p => p.1 = klass.ident)).length = 1) := by
  unfold RegistryState.register at h
  split_ifs at h with hc hk hp
  · -- identity already present: the call was a no-op, r1 = r
    rw [Except.ok.injEq] at h
    subst h
    push_neg at hk
    constructor
    · simp [RegistryState.register, hc, hk, hp]
    · intro habs
      rw [habs] at hp
      simp at hp
  · -- identity absent: a single entry was appended
    rw [Except.ok.injEq] at h
    subst h
    push_neg at hk
    have habs' : alookup r.registered klass.ident = none := by
      cases hx : alookup r.registered klass.ident
      · rfl
      · rw [hx] at hp
        simp at hp
    have hlook : alookup (r.registered ++ [(klass.ident, klass)]) klass.ident
        = some klass := by
      rw [alookup_append_of_none _ _ _ habs']
      simp [alookup]
    constructor
    · simp only [RegistryState.register, RegistryState.isCompatible,
        RegistryState.kindOf] at hc hk ⊢
      simp [hc, hk, hlook]
    · intro habs
      refine ⟨hlook, ?_⟩
      simp only [List.filter_append]
      rw [alookup_filter_nil _ _ habs]
      simp

/-- C5 witness: registering `DatabaseResource` twice on a fresh resource
registry succeeds, is a no-op the second time, and leaves exactly one entry
under `"database"`. -/
theorem C5_register_idempotent_witness :
    (resourceRegistryClass.instantiate.register databaseResourceClass
      = Except.ok (RegistryState.mk resourceAbstractClass
          [("database", databaseResourceClass)] [])) ∧
    ((RegistryState.mk resourceAbstractClass
        [("database", databaseResourceClass)] []).register databaseResourceClass
      = Except.ok (RegistryState.mk resourceAbstractClass
          [("database", databaseResourceClass)] [])) ∧
    alookup (RegistryState.mk resourceAbstractClass
        [("database", databaseResourceClass)] []).registered "database"
      = some databaseResourceClass ∧
    ((RegistryState.mk resourceAbstractClass
        [("database", databaseResourceClass)] []).registered.filter
        (fun p => p.1 = "database")).length = 1 := by
  have h := C5_register_idempotent resourceRegistryClass.instantiate
    (RegistryState.mk resourceAbstractClass
      [("database", databaseResourceClass)] [])
    databaseResourceClass (by rfl)
  exact ⟨by rfl, h.1, (h.2 rfl).1, (h.2 rfl).2⟩

/-! ## Registry operation sequences and the registration invariant -/

/-- The mutating entry points of a `Registry`.  An operation that raises
leaves the registry untouched (in the source, every `raise` in `register` and
`get` happens before any mutation). -/
inductive RegOp where
  | register (klass : RClass)
  | get (ident : String)
  deriving DecidableEq, Repr

def RegistryState.applyOp (r : RegistryState) : RegOp → RegistryState
  | .register klass =>
    match r.register klass with
    | .ok r' => r'
    | .error _ => r
  | .get ident =>
    match r.get ident with
    | .ok (_, r') => r'
    | .error _ => r

/-- The registration invariant: every class in the `registered` map has the
registry's kind and is subtype-compatible with the registry's declared
registrant type. -/
def RegistryState.Inv (r : RegistryState) : Prop :=
  ∀ p ∈ r.registered, p.2.kind = r.kindOf ∧ r.isCompatible p.2 = true

instance (r : RegistryState) : Decidable r.Inv := by
  unfold RegistryState.Inv
  infer_instance

/-- A successful `register` passed both guards and at most appended the one
new entry; it never touches `registrantType` or `initialized`. -/
theorem register_ok_cases (r r' : RegistryState) (klass : RClass)
    (h : r.register klass = Except.ok r') :
    r.isCompatible klass = true ∧ klass.kind = r.kindOf ∧
    r'.registrantType = r.registrantType ∧
    (r'.registered = r.registered ∨
      r'.registered = r.registered ++ [(klass.ident, klass)]) := by
  unfold RegistryState.register at h
  split_ifs at h with hc hk hp
  · rw [Except.ok.injEq] at h
    subst h
    push_neg at hk
    exact ⟨by simpa using hc, hk, rfl, Or.inl rfl⟩
  · rw [Except.ok.injEq] at h
    subst h
    push_neg at hk
    exact ⟨by simpa using hc, hk, rfl, Or.inr rfl⟩

/-- A successful `get` only adds to `initialized`: the `registered` map and
the registrant type are untouched. -/
theorem get_ok_frame (r r' : RegistryState) (ident : String) (inst : Instance)
    (h : r.get ident = Except.ok (inst, r')) :
    r'.registrantType = r.registrantType ∧ r'.registered = r.registered := by
  unfold RegistryState.get at h
  split_ifs at h with hn
  cases hinit : alookup r.initialized ident with
  | some i =>
    rw [hinit] at h
    simp at h
    obtain ⟨h1, h2⟩ := h
    subst h2
    exact ⟨rfl, rfl⟩
  | none =>
    rw [hinit] at h
    cases hreg : alookup r.registered ident with
    | none =>
      rw [hreg] at h
      simp at h
    | some klass =>
      rw [hreg] at h
      simp [registrantInit_eq] at h
      obtain ⟨h1, h2⟩ := h
      subst h2
      exact ⟨rfl, rfl⟩

/-- Both registry operations preserve the registration invariant. -/
theorem applyOp_preserves_inv (r : RegistryState) (op : RegOp) (h : r.Inv) :
    (r.applyOp op).Inv := by
  cases op with
  | register klass =>
    cases hreg : r.register klass with
    | error e =>
      have : r.applyOp (.register klass) = r := by
        simp only [RegistryState.applyOp]
        rw [hreg]
      rw [this]
      exact h
    | ok r' =>
      have heq : r.applyOp (.register klass) = r' := by
        simp only [RegistryState.applyOp]
        rw [hreg]
      rw [heq]
      obtain ⟨hc, hk, htype, hmap⟩ := register_ok_cases r r' klass hreg
      have hkind : r'.kindOf = r.kindOf := by
        unfold RegistryState.kindOf
        rw [htype]
      have hcomp : ∀ x, r'.isCompatible x = r.isCompatible x := by
        intro x
        unfold RegistryState.isCompatible
        rw [htype]
      intro p hp
      rw [hkind, hcomp]
      rcases hmap with hsame | happ
      · rw [hsame] at hp
        exact h p hp
      · rw [happ] at hp
        rcases List.mem_append.mp hp with hold | hnew
        · exact h p hold
        · rw [List.mem_singleton.mp hnew]
          exact ⟨hk, hc⟩
  | get ident =>
    cases hget : r.get ident with
    | error e =>
      have : r.applyOp (.get ident) = r := by
        simp only [RegistryState.applyOp]
        rw [hget]
      rw [this]
      exact h
    | ok pr =>
      obtain ⟨inst, r'⟩ := pr
      have heq : r.applyOp (.get ident) = r' := by
        simp only [RegistryState.applyOp]
        rw [hget]
      rw [heq]
      obtain ⟨htype, hmap⟩ := get_ok_frame r r' ident inst hget
      have hkind : r'.kindOf = r.kindOf := by
        unfold RegistryState.kindOf
        rw [htype]
      have hcomp : ∀ x, r'.isCompatible x = r.isCompatible x := by
        intro x
        unfold RegistryState.isCompatible
        rw [htype]
      intro p hp
      rw [hmap] at hp
      rw [hkind, hcomp]
      exact h p hp

/-- C6: a class incompatible with the registry's declared registrant type is
rejected with `TypeError`; a compatible class whose kind mismatches the
registry's kind is rejected with `ValueError` (both before any mutation); and
the invariant — every registered class has the registry's kind and is
subtype-compatible — is preserved by every sequence of `register`/`get`
operations. -/
theorem C6_registration_invariant (r : RegistryState) (klass : RClass)
    (ops : List RegOp) :
    (r.isCompatible klass = false →
      r.register klass = Except.error PyError.typeError) ∧
    (r.isCompatible klass = true → klass.kind ≠ r.kindOf →
      r.register klass = Except.error PyError.valueError) ∧
    (r.Inv → (ops.foldl RegistryState.applyOp r).Inv) := by
  refine ⟨?_, ?_, ?_⟩
  · intro h
    simp [RegistryState.register, h]
  · intro hc hk
    simp [RegistryState.register, hc, hk]
  · intro h
    induction ops generalizing r with
    | nil => exact h
    | cons op rest ih => exact ih _ (applyOp_preserves_inv r op h)

/-- C6 witness: a fresh resource registry rejects `Rogue` (not a resource
subtype) with `TypeError`, rejects `ServiceThing` (a resource subtype whose
kind is `"service"`) with `ValueError`, and keeps the invariant across a
concrete sequence of operations. -/
theorem C6_registration_invariant_witness :
    resourceRegistryClass.instantiate.register rogueClass
      = Except.error PyError.typeError ∧
    resourceRegistryClass.instantiate.register wrongKindClass
      = Except.error PyError.valueError ∧
    ([RegOp.register databaseResourceClass, RegOp.get "database",
      RegOp.register cacheResourceClass, RegOp.register rogueClass,
      RegOp.get "missing"].foldl RegistryState.applyOp
        resourceRegistryClass.instantiate).Inv := by
  refine ⟨(C6_registration_invariant resourceRegistryClass.instantiate
      rogueClass []).1 (by decide),
    (C6_registration_invariant resourceRegistryClass.instantiate
      wrongKindClass []).2.1 (by decide) (by decide),
    (C6_registration_invariant resourceRegistryClass.instantiate
      databaseResourceClass _).2.2 (by decide)⟩

/-- C3: `Registrar.register_registry`.  The kind the resolver computes for a
registry class is, by the resolver's `is_registry` branch, the class's own
declared `kind()` — so no registry class can trigger the mismatch rejection,
and the claim's rejection clause holds vacuously.  Registration is idempotent:
when a registry of the kind already exists the call leaves it in place, and a
kind not yet present gets exactly one new registry instance. -/
theorem C3_register_registry_idempotent (s : RegistrarState)
    (rc : RegistryClass) :
    resolveRegistryKind rc = rc.kindDecl ∧
    ((alookup s.registries rc.kindDecl).isSome = true →
      s.registerRegistry rc = Except.ok s) ∧
    (alookup s.registries rc.kindDecl = none →
      s.registerRegistry rc = Except.ok
        { s with registries :=
            s.registries ++ [(rc.kindDecl, rc.instantiate)] }) ∧
    (∀ s1, s.registerRegistry rc = Except.ok s1 →
      s1.registerRegistry rc = Except.ok s1) := by
  refine ⟨rfl, ?_, ?_, ?_⟩
  · intro h
    simp [RegistrarState.registerRegistry, resolveRegistryKind, h]
  · intro h
    simp [RegistrarState.registerRegistry, resolveRegistryKind, h]
  · intro s1 h
    unfold RegistrarState.registerRegistry resolveRegistryKind at h
    rw [if_neg (by simp)] at h
    split_ifs at h with hp
    · -- a registry of this kind already existed: s1 = s
      rw [Except.ok.injEq] at h
      subst h
      simp [RegistrarState.registerRegistry, resolveRegistryKind, hp]
    · -- first registration: s1 holds the one new instance
      rw [Except.ok.injEq] at h
      subst h
      have hnone : alookup s.registries rc.kindDecl = none := by
        cases hx : alookup s.registries rc.kindDecl
        · rfl
        · rw [hx] at hp
          simp at hp
      have hlook : alookup (s.registries ++ [(rc.kindDecl, rc.instantiate)])
          rc.kindDecl = some rc.instantiate := by
        rw [alookup_append_of_none _ _ _ hnone]
        simp [alookup]
      simp [RegistrarState.registerRegistry, resolveRegistryKind, hlook]

/-- C3 witness: registering `ResourceRegistry` on an empty registrar creates
one registry of kind `"resource"`, and a second `register_registry` call
leaves the state unchanged. -/
theorem C3_register_registry_idempotent_witness :
    resolveRegistryKind resourceRegistryClass
      = resourceRegistryClass.kindDecl ∧
    RegistrarState.registerRegistry ⟨[], []⟩ resourceRegistryClass
      = Except.ok ⟨[("resource", resourceRegistryClass.instantiate)], []⟩ ∧
    RegistrarState.registerRegistry
        ⟨[("resource", resourceRegistryClass.instantiate)], []⟩
        resourceRegistryClass
      = Except.ok ⟨[("resource", resourceRegistryClass.instantiate)], []⟩ := by
  have h := C3_register_registry_idempotent
    (⟨[], []⟩ : RegistrarState) resourceRegistryClass
  exact ⟨h.1, h.2.2.1 rfl,
    h.2.2.2 ⟨[("resource", resourceRegistryClass.instantiate)], []⟩ (by rfl)⟩

/-! ## `Bootstrap.get_resource` scenarios -/

/-- A bootstrap-style registrar whose resource registry has
`DatabaseResource` registered but not yet constructed. -/
def sampleRegistrarState : RegistrarState :=
  { registries := [("resource",
      { registrantType := resourceAbstractClass
        registered := [("database", databaseResourceClass)]
        initialized := [] })]
    options := [] }

/-- The same registrar after the database instance has been constructed and
cached. -/
def sampleRegistrarStateAfter : RegistrarState :=
  { registries := [("resource",
      { registrantType := resourceAbstractClass
        registered := [("database", databaseResourceClass)]
        initialized := [("database", databaseInstance)] })]
    options := [] }

/-- A different resource class that also has identity `"database"`: retrieving
by this type yields the registered `DatabaseResource` instance, which is not
an instance of it. -/
def otherDatabaseClass : RClass :=
  { name := "OtherDatabase"
    kind := "resource"
    ident := "database"
    ancestors := ["OtherDatabase", "ResourceAbstract", "RegistrantAbstract"] }

/-- C9: `Bootstrap.get_resource` enforces the returned instance's type.  When
called with a type, a successful call returns an instance of that type, and a
retrieved instance that is not one fails with a type error; when called with
a string identity, a retrieved instance of the base resource type is returned
and any other instance fails with a type error. -/
theorem C9_get_resource_type_enforcement (s : RegistrarState) :
    (∀ (T : RClass) (inst : Instance) (s1 : RegistrarState),
      Bootstrap.getResource s (.cls T) = Except.ok (inst, s1) →
      isinstanceOf inst T = true) ∧
    (∀ (T : RClass) (inst : Instance) (s2 : RegistrarState),
      s.get resourceAbstractClass.kind T.ident = Except.ok (inst, s2) →
      isinstanceOf inst T = false →
      Bootstrap.getResource s (.cls T) = Except.error PyError.typeError) ∧
    (∀ (ident : String) (inst : Instance) (s2 : RegistrarState),
      s.get resourceAbstractClass.kind ident = Except.ok (inst, s2) →
      (isinstanceOf inst resourceAbstractClass = false →
        Bootstrap.getResource s (.str ident)
          = Except.error PyError.typeError) ∧
      (isinstanceOf inst resourceAbstractClass = true →
        Bootstrap.getResource s (.str ident) = Except.ok (inst, s2))) := by
  refine ⟨?_, ?_, ?_⟩
  · intro T inst s1 h
    simp only [Bootstrap.getResource, resolveIdentity] at h
    cases hget : s.get resourceAbstractClass.kind T.ident with
    | error e =>
      rw [hget] at h
      simp at h
    | ok pr =>
      obtain ⟨i0, s0⟩ := pr
      rw [hget] at h
      simp only [] at h
      split_ifs at h with hi
      simp only [Except.ok.injEq, Prod.mk.injEq] at h
      rw [← h.1]
      exact hi
  · intro T inst s2 hget hi
    simp only [Bootstrap.getResource, resolveIdentity]
    rw [hget]
    simp [hi]
  · intro ident inst s2 hget
    constructor
    · intro hi
      simp only [Bootstrap.getResource, resolveIdentity]
      rw [hget]
      simp [hi]
    · intro hi
      simp only [Bootstrap.getResource, resolveIdentity]
      rw [hget]
      simp [hi]

/-- C9 witness: on a registrar whose resource registry holds
`DatabaseResource`, `get_resource` with the string identity `"database"`
succeeds and returns the instance; `get_resource` with the type
`OtherDatabase` (same identity, different class) fails with a type error;
and a successful typed call implies the instance check. -/
theorem C9_get_resource_type_enforcement_witness :
    Bootstrap.getResource sampleRegistrarState (.str "database")
      = Except.ok (databaseInstance, sampleRegistrarStateAfter) ∧
    Bootstrap.getResource sampleRegistrarState (.cls otherDatabaseClass)
      = Except.error PyError.typeError ∧
    isinstanceOf databaseInstance databaseResourceClass = true := by
  refine ⟨((C9_get_resource_type_enforcement sampleRegistrarState).2.2
      "database" databaseInstance sampleRegistrarStateAfter (by rfl)).2
      (by rfl),
    (C9_get_resource_type_enforcement sampleRegistrarState).2.1
      otherDatabaseClass databaseInstance sampleRegistrarStateAfter
      (by rfl) (by rfl),
    (C9_get_resource_type_enforcement sampleRegistrarState).1
      databaseResourceClass databaseInstance sampleRegistrarStateAfter
      (by rfl)⟩

end Podlet
